import Mathlib

/-!
Formal model of the ISS tracker service (`iss_tracker.py`).

The source keeps each state-vector sample as a dictionary of strings parsed
from the NASA OEM XML feed: an `EPOCH` string in the fixed day-of-year format
`YYYY-DDDThh:mm:ss.sss` plus numeric strings for position (`X`, `Y`, `Z`) and
velocity (`X_DOT`, `Y_DOT`, `Z_DOT`).  The feed fetch, the XML parse, the
astropy coordinate-frame chain and the geopy reverse geocoder are external
collaborators; the model takes the already-extracted sample list and passes
the frame transform and the geocoder in as function arguments.  Python floats
are modelled as real numbers.
-/

/-- One entry of the `stateVector` list produced by `extract_state_vector`:
a record of the raw strings of one sample (`item['X']['#text']` etc.).
Python dictionary equality on these records is plain string equality,
modelled by the derived decidable equality. -/
structure StateVector where
  EPOCH : String
  X : String
  Y : String
  Z : String
  X_DOT : String
  Y_DOT : String
  Z_DOT : String
deriving DecidableEq

/-- A Python `datetime` value as used by `closest_datapoint_to_now` and
`get_now_info`: the source reads the hour as `int(str(dt)[11:13])` and the
minute as `int(str(dt)[14:16])`, which for `datetime`'s fixed rendering
`YYYY-MM-DD HH:MM:SS[.ffffff]` are exactly the `hour` and `minute` fields. -/
structure PyDateTime where
  year : Nat
  month : Nat
  day : Nat
  hour : Nat
  minute : Nat
  second : Nat
deriving DecidableEq

/-- Python `int(...)` on the all-digit substrings cut out of the fixed-format
epoch string (e.g. `int('079') = 79`). -/
def digitsToNat (cs : List Char) : Nat :=
  cs.foldl (fun n c => n * 10 + (c.toNat - 48)) 0

/-- Python string slice `s[a:b]` of an ASCII string, read as a number. -/
def sliceNat (s : String) (a b : Nat) : Nat :=
  digitsToNat ((s.toList.drop a).take (b - a))

/-- `int(epoch_string[5:8])` — the day-of-year of an `EPOCH` string. -/
def epochDayNum (s : String) : Nat := sliceNat s 5 8

/-- `int(epoch_string[9:11])` — the hour of an `EPOCH` string. -/
def epochHour (s : String) : Nat := sliceNat s 9 11

/-- `int(epoch_string[12:14])` — the minute of an `EPOCH` string. -/
def epochMinute (s : String) : Nat := sliceNat s 12 14

/-- The Gregorian leap-year rule used by Python's `datetime` arithmetic. -/
def isLeapYear (y : Nat) : Bool :=
  y % 4 == 0 && (y % 100 != 0 || y % 400 == 0)

/-- Length of a calendar month. -/
def daysInMonth (year month : Nat) : Nat :=
  if month = 2 then (if isLeapYear year then 29 else 28)
  else if month = 4 ∨ month = 6 ∨ month = 9 ∨ month = 11 then 30
  else 31

/-- `current_day` of `closest_datapoint_to_now`: the source computes
`int((dt - datetime(dt.year, 1, 1)).days) + 1`, i.e. the full days elapsed
since January 1st plus one, which is the day-of-year of `dt`. -/
def pyDayOfYear (t : PyDateTime) : Nat :=
  (List.range (t.month - 1)).foldl (fun acc m => acc + daysInMonth t.year (m + 1)) t.day

/-- One element of `list_of_minutes`: the dictionary
`{'minute_val': minute, 'index': state_vector.index(instance)}`. -/
structure MinEntry where
  minute_val : Nat
  index : Nat
deriving DecidableEq

/-- The second loop of `closest_datapoint_to_now`: starting from
`closest_value_index = None` and `min_difference = float('inf')` (modelled as
`none`), keep the first entry whose `abs(minute_val - current_min)` is
strictly smaller than the best difference so far. -/
def pickClosest (entries : List MinEntry) (current_min : Nat) : Option Nat :=
  (entries.foldl
    (fun acc value =>
      let difference := ((value.minute_val : Int) - (current_min : Int)).natAbs
      match acc.2 with
      | none => (some value.index, some difference)
      | some m => if difference < m then (some value.index, some difference) else acc)
    ((none, none) : Option Nat × Option Nat)).1

/-- `closest_datapoint_to_now(iss_data, current_date_and_time)`, taking the
already-extracted sample list.  The first loop collects, in feed order, a
`MinEntry` for every sample whose epoch day-of-year equals `current_day` and
whose epoch hour equals `current_hour`; the second loop picks the index of
the first entry of minimal minute difference.  Samples outside the
same-day/same-hour window are never candidates, and with no candidate the
function returns `None`. -/
def closest_datapoint_to_now (state_vector : List StateVector) (t : PyDateTime) : Option Nat :=
  let current_day := pyDayOfYear t
  let list_of_minutes :=
    (state_vector.filter
      (fun inst => epochDayNum inst.EPOCH == current_day && epochHour inst.EPOCH == t.hour)).map
      (fun inst => MinEntry.mk (epochMinute inst.EPOCH) (state_vector.indexOf inst))
  pickClosest list_of_minutes t.minute

/-- `int(epoch_string[15:17])` — the second of an `EPOCH` string (not read by
the source; used only to state true elapsed-time distances). -/
def epochSecondNum (s : String) : Nat := sliceNat s 15 17

/-- Modelled from the spec: the absolute instant of an `EPOCH` string within
its year, in seconds, for stating the true elapsed-time distance that
`findNearest` is required to minimise. -/
def specEpochSecOfYear (s : String) : Nat :=
  (epochDayNum s - 1) * 86400 + epochHour s * 3600 + epochMinute s * 60 + epochSecondNum s

/-- Modelled from the spec: the absolute instant of a `PyDateTime` within its
year, in seconds. -/
def specTimeSecOfYear (t : PyDateTime) : Nat :=
  (pyDayOfYear t - 1) * 86400 + t.hour * 3600 + t.minute * 60 + t.second

/-- Modelled from the spec: true absolute elapsed-time difference, in
seconds, between a sample's epoch and a target instant of the same year. -/
def specTrueDiff (s : String) (t : PyDateTime) : Nat :=
  ((specEpochSecOfYear s : Int) - (specTimeSecOfYear t : Int)).natAbs

/-- A sample one minute before an hour boundary. -/
def lateHourSV : StateVector :=
  ⟨"2022-079T12:59:00.000", "1.0", "2.0", "3.0", "4.0", "5.0", "6.0"⟩

/-- A target instant just after that hour boundary. -/
def lateHourT : PyDateTime := ⟨2022, 3, 20, 13, 0, 0⟩

/-- Claim C1: the nearest-sample search is NOT boundary-safe.  With a single
sample only 60 seconds before the target — but in the previous hour —
`closest_datapoint_to_now` finds no candidate in its same-day/same-hour
window and returns `None` instead of the sample minimising the true elapsed
time. -/
theorem closest_adjacent_hour_returns_none :
    closest_datapoint_to_now [lateHourSV] lateHourT = none ∧
    specTrueDiff lateHourSV.EPOCH lateHourT = 60 := by
  decide

/-- The repository test's single sample (`test_closest_datapoint_to_now`). -/
def testSV : StateVector :=
  ⟨"2022-079T00:00:00", "749126.24316", "-5412435.30952", "3192557.21655",
   "-4902.99637", "-1316.78386", "-5499.48251"⟩

/-- The repository test's target instant, 2022-03-20 12:30:00 (day 79). -/
def testT : PyDateTime := ⟨2022, 3, 20, 12, 30, 0⟩

/-- Claim C2: on a one-sample set whose epoch shares the target's day-of-year
but not its hour, `closest_datapoint_to_now` returns `None` rather than that
single sample — on exactly the input of the repository's own unit test,
which asserts the result is index `0`. -/
theorem closest_single_sample_other_hour_none :
    closest_datapoint_to_now [testSV] testT = none := by
  decide

/-- First sample of the equidistant pair: 1 second before the target. -/
def tieA : StateVector :=
  ⟨"2022-079T12:19:59.000", "1.0", "1.0", "1.0", "1.0", "1.0", "1.0"⟩

/-- Second sample of the equidistant pair: 1 second after the target. -/
def tieB : StateVector :=
  ⟨"2022-079T12:20:01.000", "2.0", "2.0", "2.0", "2.0", "2.0", "2.0"⟩

/-- The target instant between the two samples, 2022-03-20 12:20:00. -/
def tieT : PyDateTime := ⟨2022, 3, 20, 12, 20, 0⟩

/-- Claim C4 counterexample: two distinct samples, both exactly 1 second from
the target in true elapsed time, yet `closest_datapoint_to_now` returns the
SECOND one (index 1): its comparison acts on the minute fields only
(differences 1 and 0), so true-time ties are not resolved toward feed
order. -/
theorem closest_equidistant_cex :
    specTrueDiff tieA.EPOCH tieT = specTrueDiff tieB.EPOCH tieT ∧
    tieA ≠ tieB ∧
    closest_datapoint_to_now [tieA, tieB] tieT = some 1 := by
  decide

/-- Claim C4 (amended): among samples inside the code's same-day/same-hour
window, the distance compared is the absolute MINUTE difference; for two
distinct such samples with equal minute difference to the target, the first
in feed order wins, because the running-minimum update uses a strict-less
comparison. -/
theorem closest_tie_first_in_window (a b : StateVector) (t : PyDateTime)
    (hab : a ≠ b)
    (hda : epochDayNum a.EPOCH = pyDayOfYear t) (hha : epochHour a.EPOCH = t.hour)
    (hdb : epochDayNum b.EPOCH = pyDayOfYear t) (hhb : epochHour b.EPOCH = t.hour)
    (heq : ((epochMinute a.EPOCH : Int) - (t.minute : Int)).natAbs
         = ((epochMinute b.EPOCH : Int) - (t.minute : Int)).natAbs) :
    closest_datapoint_to_now [a, b] t = some 0 := by
  have hba : b ≠ a := fun hc => hab hc.symm
  simp only [closest_datapoint_to_now, List.filter_cons, List.filter_nil,
    hda, hha, hdb, hhb, beq_self_eq_true, Bool.and_self, if_true, List.map_cons, List.map_nil]
  rw [List.indexOf_cons_self, List.indexOf_cons_ne _ hab, List.indexOf_cons_self]
  simp only [pickClosest, List.foldl_cons, List.foldl_nil]
  rw [heq]
  simp

/-- First sample of the tie witness pair, one minute before the target. -/
def tieWA : StateVector :=
  ⟨"2022-079T12:19:00.000", "1.0", "1.0", "1.0", "1.0", "1.0", "1.0"⟩

/-- Second sample of the tie witness pair, one minute after the target. -/
def tieWB : StateVector :=
  ⟨"2022-079T12:21:00.000", "2.0", "2.0", "2.0", "2.0", "2.0", "2.0"⟩

/-- Witness for `closest_tie_first_in_window` at a concrete pair. -/
theorem closest_tie_first_in_window_witness :
    closest_datapoint_to_now [tieWA, tieWB] tieT = some 0 :=
  closest_tie_first_in_window tieWA tieWB tieT (by decide) (by decide) (by decide)
    (by decide) (by decide) (by decide)

/-- The `/epochs/<epoch>` route `get_specific_epoch`: loop over the samples
and RETURN the first one whose `EPOCH` equals the query; falling off the loop
yields the string `"Epoch not found"`, modelled as `none`. -/
def get_specific_epoch (data : List StateVector) (epoch : String) : Option StateVector :=
  match data with
  | [] => none
  | item :: rest => if item.EPOCH = epoch then some item else get_specific_epoch rest epoch

/-- The lookup loop at the top of `get_location_info`: `sv = None`, then
`for item in data: if item['EPOCH'] == epoch: sv = item` — the loop has no
`break`, so the accumulator ends at the LAST matching sample. -/
def locLookup (data : List StateVector) (epoch : String) : Option StateVector :=
  data.foldl (fun sv item => if item.EPOCH = epoch then some item else sv) none

/-- The geodetic triple `(loc.lat.value, loc.lon.value, loc.height.value)`
produced by the astropy chain, with Python floats modelled as reals. -/
structure GeodeticPoint where
  lat : ℝ
  lon : ℝ
  alt : ℝ

/-- Unhandled Python exceptions that can escape the queries: `TypeError`
(indexing a list with `None`), `IndexError` (index out of range), and a
raised geocoder exception such as `GeocoderUnavailable`. -/
inductive PyError where
  | typeError
  | indexError
  | geocoderError
deriving DecidableEq

/-- The `response_data` dictionary returned by `get_location_info`. -/
structure LocResponse where
  latitude : ℝ
  longitude : ℝ
  altitude : ℝ
  geolocation : String

/-- The two normal returns of `get_location_info`: the
`"Epoch not found, please enter a valid epoch value"` message, or the
`response_data` dictionary. -/
inductive LocResult where
  | notFoundMessage
  | response (r : LocResponse)

/-- `get_location_info(epoch)`.  The `float(...)` parses together with the
astropy GCRS→ITRS→EarthLocation chain of lines 105–117 are the external
frame-transform collaborator, passed in as the total function `transform`
from the sample's raw strings to a geodetic point; note the source applies
it unconditionally — there is no branch examining the magnitude of the
position.  The geopy `Nominatim.reverse` call is the `geocoder` argument;
`none` models the geocoder raising (e.g. `GeocoderUnavailable`), which the
source does not catch, so it escapes as the `Except.error` of the whole
query. -/
def get_location_info (transform : String → String → String → String → GeodeticPoint)
    (geocoder : ℝ → ℝ → Option String)
    (data : List StateVector) (epoch : String) : Except PyError LocResult :=
  match locLookup data epoch with
  | none => .ok .notFoundMessage
  | some sv =>
    let loc := transform sv.X sv.Y sv.Z sv.EPOCH
    match geocoder loc.lat loc.lon with
    | none => .error .geocoderError
    | some geoloc => .ok (.response ⟨loc.lat, loc.lon, loc.alt, geoloc⟩)

/-- The no-break accumulator loop computes the last match: folding the
update `if item.EPOCH = epoch then some item else sv` over `l` from `acc`
yields the first match of the reversed list, falling back to `acc`. -/
theorem locLookup_foldl_eq (epoch : String) (l : List StateVector) (acc : Option StateVector) :
    l.foldl (fun sv item => if item.EPOCH = epoch then some item else sv) acc
      = (l.reverse.find? (fun it => it.EPOCH == epoch)).or acc := by
  induction l generalizing acc with
  | nil => simp
  | cons a l ih =>
    rw [List.foldl_cons, ih, List.reverse_cons, List.find?_append, Option.or_assoc]
    congr 1
    by_cases h : a.EPOCH = epoch
    · simp [List.find?, h]
    · have hb : (a.EPOCH == epoch) = false := beq_eq_false_iff_ne.mpr h
      simp [List.find?, hb, h, Option.or]

/-- `get_specific_epoch` is the first match in feed order. -/
theorem get_specific_epoch_eq_find (data : List StateVector) (epoch : String) :
    get_specific_epoch data epoch = data.find? (fun it => it.EPOCH == epoch) := by
  induction data with
  | nil => rfl
  | cons a l ih =>
    rw [get_specific_epoch, List.find?]
    by_cases h : a.EPOCH = epoch
    · simp [h]
    · have hb : (a.EPOCH == epoch) = false := beq_eq_false_iff_ne.mpr h
      simp [h, hb, ih]

/-- Claim C3 counterexample: two distinct samples sharing one epoch string.
The by-epoch route returns the FIRST (`dupA`), but `get_location_info`
resolves the same query to the LAST: with a transform mapping `dupB`'s `X`
string `"2.0"` to latitude 1 and everything else to latitude 0, the location
response carries latitude 1, i.e. it was computed from `dupB`. -/
def dupA : StateVector :=
  ⟨"2022-080T01:02:03.000", "1.0", "0.0", "0.0", "0.0", "0.0", "0.0"⟩

/-- The later duplicate-epoch sample. -/
def dupB : StateVector :=
  ⟨"2022-080T01:02:03.000", "2.0", "0.0", "0.0", "0.0", "0.0", "0.0"⟩

/-- Transform distinguishing the two duplicate-epoch samples by their `X`. -/
def dupTr : String → String → String → String → GeodeticPoint :=
  fun x _ _ _ => ⟨if x = "2.0" then 1 else 0, 0, 0⟩

/-- Claim C3, refuted at a concrete input: on `[dupA, dupB]` with their
shared epoch, the by-epoch lookup gives `dupA` but the location query's
result is computed from `dupB` (latitude 1), not from the earlier sample. -/
theorem location_lookup_last_cex :
    get_specific_epoch [dupA, dupB] "2022-080T01:02:03.000" = some dupA ∧
    dupA ≠ dupB ∧
    get_location_info dupTr (fun _ _ => some "place") [dupA, dupB] "2022-080T01:02:03.000"
      = .ok (.response ⟨1, 0, 0, "place"⟩) := by
  refine ⟨by decide, by decide, ?_⟩
  rfl

/-- Claim C3 (amended): the by-epoch route returns the FIRST sample in feed
order whose `EPOCH` equals the query (and the not-found message exactly when
no sample matches), while the location query's lookup loop, having no
`break`, resolves to the LAST match in feed order. -/
theorem epoch_lookup_first_and_last (data : List StateVector) (epoch : String) :
    get_specific_epoch data epoch = data.find? (fun it => it.EPOCH == epoch) ∧
    locLookup data epoch = data.reverse.find? (fun it => it.EPOCH == epoch) ∧
    (get_specific_epoch data epoch = none ↔ ∀ sv ∈ data, sv.EPOCH ≠ epoch) := by
  refine ⟨get_specific_epoch_eq_find data epoch, ?_, ?_⟩
  · rw [locLookup, locLookup_foldl_eq]
    simp
  · rw [get_specific_epoch_eq_find, List.find?_eq_none]
    simp

/-- A frame-transform collaborator returning a fixed geodetic point. -/
def trConst : String → String → String → String → GeodeticPoint :=
  fun _ _ _ _ => ⟨0, 0, 0⟩

/-- A sample whose position strings are all `"0.0"`. -/
def zeroSV : StateVector :=
  ⟨"2022-079T00:00:00.000", "0.0", "0.0", "0.0", "0.0", "0.0", "0.0"⟩

/-- Claim C5: when the reverse-geocoding collaborator raises, the exception
escapes `get_location_info` uncaught — for any epoch present in the set the
whole query fails instead of returning the numeric geodetic result with a
placeholder name. -/
theorem geocoder_failure_fails_query
    (transform : String → String → String → String → GeodeticPoint)
    (data : List StateVector) (epoch : String) (sv : StateVector)
    (hfind : locLookup data epoch = some sv) :
    get_location_info transform (fun _ _ => none) data epoch = .error .geocoderError := by
  unfold get_location_info
  rw [hfind]

/-- Witness for `geocoder_failure_fails_query` at a concrete sample. -/
theorem geocoder_failure_fails_query_witness :
    get_location_info trConst (fun _ _ => none) [zeroSV] "2022-079T00:00:00.000"
      = .error .geocoderError :=
  geocoder_failure_fails_query trConst [zeroSV] "2022-079T00:00:00.000" zeroSV (by decide)

/-- Claim C8 counterexample: for a sample whose position is the zero vector,
the location query happily returns a geodetic result — it does not fail for
degenerate geometry. -/
theorem location_zero_position_cex :
    get_location_info trConst (fun _ _ => some "Ocean") [zeroSV] "2022-079T00:00:00.000"
      = .ok (.response ⟨0, 0, 0, "Ocean"⟩) := rfl

/-- Claim C8 (amended): the location query performs no near-zero-magnitude
check at all: whenever the queried epoch resolves to a sample — even one
whose position strings are all `"0.0"` — and the geocoder succeeds, the
query returns the transform's numeric geodetic result; no invalid-input
failure path exists. -/
theorem location_no_degenerate_check
    (transform : String → String → String → String → GeodeticPoint)
    (place : String) (data : List StateVector) (epoch : String) (sv : StateVector)
    (hfind : locLookup data epoch = some sv)
    (hx : sv.X = "0.0") (hy : sv.Y = "0.0") (hz : sv.Z = "0.0") :
    get_location_info transform (fun _ _ => some place) data epoch
      = .ok (.response ⟨(transform "0.0" "0.0" "0.0" sv.EPOCH).lat,
                        (transform "0.0" "0.0" "0.0" sv.EPOCH).lon,
                        (transform "0.0" "0.0" "0.0" sv.EPOCH).alt, place⟩) := by
  have key : get_location_info transform (fun _ _ => some place) data epoch
      = .ok (.response ⟨(transform sv.X sv.Y sv.Z sv.EPOCH).lat,
                        (transform sv.X sv.Y sv.Z sv.EPOCH).lon,
                        (transform sv.X sv.Y sv.Z sv.EPOCH).alt, place⟩) := by
    unfold get_location_info
    rw [hfind]
  rw [key, hx, hy, hz]

/-- Witness for `location_no_degenerate_check` at the zero-position sample. -/
theorem location_no_degenerate_check_witness :
    get_location_info trConst (fun _ _ => some "Sea") [zeroSV] "2022-079T00:00:00.000"
      = .ok (.response ⟨(trConst "0.0" "0.0" "0.0" zeroSV.EPOCH).lat,
                        (trConst "0.0" "0.0" "0.0" zeroSV.EPOCH).lon,
                        (trConst "0.0" "0.0" "0.0" zeroSV.EPOCH).alt, "Sea"⟩) :=
  location_no_degenerate_check trConst "Sea" [zeroSV] "2022-079T00:00:00.000" zeroSV
    (by decide) rfl rfl rfl

/-- Python slice-bound normalisation for `l[a:b]`: a negative bound counts
from the end and is clamped below at 0; a non-negative bound is clamped
above at the length. -/
def pySliceNorm (n : Nat) (i : Int) : Nat :=
  if i < 0 then ((n : Int) + i).toNat else min i.toNat n

/-- Python list slice `l[a:b]` with arbitrary integer bounds. -/
def pySlice {α : Type} (l : List α) (a b : Int) : List α :=
  (l.take (pySliceNorm l.length b)).drop (pySliceNorm l.length a)

/-- A query parameter of the `/epochs` route after `request.args.get` and
Python `int(...)`: absent (so the default applies), a string `int()` parses
to `n`, or a string `int()` rejects with `ValueError`. -/
inductive ParamArg where
  | absent
  | intStr (n : Int)
  | malformed

/-- `int(request.args.get(name, default))`: `none` models the `ValueError`
branch of the `try` blocks. -/
def paramValue (dflt : Int) (p : ParamArg) : Option Int :=
  match p with
  | .absent => some dflt
  | .intStr n => some n
  | .malformed => none

/-- The outcomes of the `/epochs` route: the two invalid-parameter message
strings, or the JSON list of samples. -/
inductive EpochsResult where
  | invalidOffset
  | invalidLimit
  | ok (items : List StateVector)
deriving DecidableEq

/-- The `/epochs` route `get_epochs`: offset defaults to 0 and limit to
`len(data)`, each `try`/`int(...)` rejects only non-integer strings, and the
result is the Python slice `data[offset:offset+limit]`. -/
def get_epochs (data : List StateVector) (offsetArg limitArg : ParamArg) : EpochsResult :=
  match paramValue 0 offsetArg with
  | none => .invalidOffset
  | some offset =>
    match paramValue (data.length : Int) limitArg with
    | none => .invalidLimit
    | some limit => .ok (pySlice data offset (offset + limit))

/-- `l[0:0+len(l)]` is all of `l`. -/
theorem pySlice_full {α : Type} (l : List α) : pySlice l 0 (0 + (l.length : Int)) = l := by
  have h0 : pySliceNorm l.length 0 = 0 := by
    rw [pySliceNorm, if_neg (by omega)]
    omega
  have h1 : pySliceNorm l.length (0 + (l.length : Int)) = l.length := by
    rw [pySliceNorm, if_neg (by omega)]
    omega
  rw [pySlice, h0, h1, List.take_length, List.drop_zero]

/-- A slice starting past the end of the list is empty, whatever the other
bound. -/
theorem pySlice_overrun {α : Type} (l : List α) (a b : Int) (h : (l.length : Int) < a) :
    pySlice l a b = [] := by
  have ha : pySliceNorm l.length a = l.length := by
    rw [pySliceNorm, if_neg (by omega)]
    omega
  rw [pySlice, ha]
  apply List.drop_eq_nil_of_le
  rw [List.length_take]
  omega

/-- Claim C6: with offset 0 and limit `N = len(data)` the route returns the
whole sample list in feed order, and with any offset strictly beyond `N` it
returns the empty list — an `ok` outcome, not an error. -/
theorem get_epochs_full_slice_and_overrun (data : List StateVector) (off lim : Int) :
    get_epochs data (ParamArg.intStr 0) (ParamArg.intStr (data.length : Int)) = .ok data ∧
    ((data.length : Int) < off →
      get_epochs data (ParamArg.intStr off) (ParamArg.intStr lim) = .ok []) := by
  refine ⟨?_, fun h => ?_⟩
  · show EpochsResult.ok (pySlice data 0 (0 + (data.length : Int))) = EpochsResult.ok data
    rw [pySlice_full]
  · show EpochsResult.ok (pySlice data off (off + lim)) = EpochsResult.ok []
    rw [pySlice_overrun data off (off + lim) h]

/-- Five pairwise-distinct samples for the paging counterexamples. -/
def sv1 : StateVector := ⟨"2022-001T00:01:00.000", "1", "1", "1", "1", "1", "1"⟩

/-- Second paging sample. -/
def sv2 : StateVector := ⟨"2022-001T00:02:00.000", "2", "2", "2", "2", "2", "2"⟩

/-- Third paging sample. -/
def sv3 : StateVector := ⟨"2022-001T00:03:00.000", "3", "3", "3", "3", "3", "3"⟩

/-- Fourth paging sample. -/
def sv4 : StateVector := ⟨"2022-001T00:04:00.000", "4", "4", "4", "4", "4", "4"⟩

/-- Fifth paging sample. -/
def sv5 : StateVector := ⟨"2022-001T00:05:00.000", "5", "5", "5", "5", "5", "5"⟩

/-- A five-sample ephemeris set. -/
def data5 : List StateVector := [sv1, sv2, sv3, sv4, sv5]

/-- Claim C7 counterexample: the integer-valued negative offset `-2` is NOT
rejected as a bad request — the route answers with the last two samples,
interpreting the offset as a from-the-end slice position. -/
theorem get_epochs_negative_offset_cex :
    get_epochs data5 (ParamArg.intStr (-2)) (ParamArg.intStr 10) = .ok [sv4, sv5] := by
  decide

/-- Claim C7 (amended): the route validates offset and limit only to be
integers — a non-integer string is rejected with the invalid-parameter
message, but a negative integer offset `-k` is accepted and interpreted
under Python slice semantics, yielding the last `k` samples whenever the
limit is large enough. -/
theorem get_epochs_negative_offset_accepted (data : List StateVector) (k lim : Nat)
    (hk : 0 < k) (hkn : k ≤ data.length) (hlim : data.length + k ≤ lim) :
    get_epochs data (ParamArg.intStr (-(k : Int))) (ParamArg.intStr (lim : Int))
      = .ok (data.drop (data.length - k)) ∧
    get_epochs data ParamArg.malformed (ParamArg.intStr (lim : Int)) = .invalidOffset := by
  refine ⟨?_, rfl⟩
  show EpochsResult.ok (pySlice data (-(k : Int)) (-(k : Int) + (lim : Int)))
      = EpochsResult.ok (data.drop (data.length - k))
  have ha : pySliceNorm data.length (-(k : Int)) = data.length - k := by
    rw [pySliceNorm, if_pos (by omega)]
    omega
  have hb : pySliceNorm data.length (-(k : Int) + (lim : Int)) = data.length := by
    rw [pySliceNorm, if_neg (by omega)]
    omega
  rw [pySlice, ha, hb, List.take_length]

/-- Witness for `get_epochs_negative_offset_accepted` on the five-sample
set with offset `-2` and limit `10`. -/
theorem get_epochs_negative_offset_accepted_witness :
    get_epochs data5 (ParamArg.intStr (-2)) (ParamArg.intStr 10) = .ok (data5.drop 3) ∧
    get_epochs data5 ParamArg.malformed (ParamArg.intStr 10) = .invalidOffset :=
  get_epochs_negative_offset_accepted data5 2 10 (by decide) (by decide) (by decide)

/-- Witness for `get_epochs_full_slice_and_overrun` on the five-sample set
with overshooting offset 10. -/
theorem get_epochs_full_slice_and_overrun_witness :
    get_epochs data5 (ParamArg.intStr 0) (ParamArg.intStr (data5.length : Int)) = .ok data5 ∧
    get_epochs data5 (ParamArg.intStr 10) (ParamArg.intStr 3) = .ok [] :=
  ⟨(get_epochs_full_slice_and_overrun data5 10 3).1,
   (get_epochs_full_slice_and_overrun data5 10 3).2 (by decide)⟩

/-- `calculate_speed(x_velocity, y_velocity, z_velocity)`:
`math.sqrt(x_velocity**2 + y_velocity**2 + z_velocity**2)`, with Python
floats modelled as reals. -/
noncomputable def calculate_speed (x_velocity y_velocity z_velocity : ℝ) : ℝ :=
  Real.sqrt (x_velocity ^ 2 + y_velocity ^ 2 + z_velocity ^ 2)

/-- Claim C9: the speed of any velocity vector is non-negative and equals
the speed of the negated vector. -/
theorem calculate_speed_nonneg_symm (x y z : ℝ) :
    0 ≤ calculate_speed x y z ∧ calculate_speed (-x) (-y) (-z) = calculate_speed x y z := by
  refine ⟨Real.sqrt_nonneg _, ?_⟩
  unfold calculate_speed
  rw [neg_sq, neg_sq, neg_sq]

/-- The `all_info` dictionary of the `/now` route: the stringified
instantaneous speed merged with the location response. -/
structure NowResponse where
  instantaneous_speed : ℝ
  latitude : ℝ
  longitude : ℝ
  altitude : ℝ
  geolocation : String

/-- The `/now` route `get_now_info`.  It calls `closest_datapoint_to_now`
and then evaluates `state_vector[closest_value_index]` with NO `None` check:
a `None` index raises `TypeError`, modelled as `Except.error .typeError`.
`parseF` models Python `float(...)` on the velocity strings; the location
part reuses `get_location_info`, whose escaping exceptions propagate.  If
the inner lookup ever produced the not-found STRING, the final
`{'instantaneous_speed': ..., **location}` unpacking of a string would also
raise `TypeError`. -/
noncomputable def get_now_info (parseF : String → ℝ)
    (transform : String → String → String → String → GeodeticPoint)
    (geocoder : ℝ → ℝ → Option String)
    (data : List StateVector) (t : PyDateTime) : Except PyError NowResponse :=
  match closest_datapoint_to_now data t with
  | none => .error .typeError
  | some i =>
    match data[i]? with
    | none => .error .indexError
    | some sv =>
      let speed_inst := calculate_speed (parseF sv.X_DOT) (parseF sv.Y_DOT) (parseF sv.Z_DOT)
      match get_location_info transform geocoder data sv.EPOCH with
      | .error e => .error e
      | .ok .notFoundMessage => .error .typeError
      | .ok (.response r) => .ok ⟨speed_inst, r.latitude, r.longitude, r.altitude, r.geolocation⟩

/-- Claim C10: whenever no sample shares the current day-of-year AND the
current hour, the candidate list of `closest_datapoint_to_now` is empty, so
it returns `None`, and the `/now` route then indexes the sample list with
`None` and dies with an unhandled `TypeError` — it does not produce a
not-ready or not-found answer. -/
theorem now_query_crashes_when_window_empty
    (parseF : String → ℝ) (transform : String → String → String → String → GeodeticPoint)
    (geocoder : ℝ → ℝ → Option String) (data : List StateVector) (t : PyDateTime)
    (h : ∀ sv ∈ data, ¬(epochDayNum sv.EPOCH = pyDayOfYear t ∧ epochHour sv.EPOCH = t.hour)) :
    closest_datapoint_to_now data t = none ∧
    get_now_info parseF transform geocoder data t = .error .typeError := by
  have hfilter :
      data.filter
        (fun inst => epochDayNum inst.EPOCH == pyDayOfYear t && epochHour inst.EPOCH == t.hour)
        = [] := by
    apply List.filter_eq_nil_iff.mpr
    intro a ha
    have hna := h a ha
    simp only [Bool.and_eq_true, beq_iff_eq]
    tauto
  have hclosest : closest_datapoint_to_now data t = none := by
    simp only [closest_datapoint_to_now, hfilter, List.map_nil]
    rfl
  refine ⟨hclosest, ?_⟩
  unfold get_now_info
  rw [hclosest]

/-- A wall-clock instant on day 80 of 2022, sharing no day-of-year with the
one-sample set of the witness. -/
def nowT : PyDateTime := ⟨2022, 3, 21, 5, 0, 0⟩

/-- Witness for `now_query_crashes_when_window_empty` on a one-sample set
queried one day after its sample. -/
theorem now_query_crashes_when_window_empty_witness :
    closest_datapoint_to_now [testSV] nowT = none ∧
    get_now_info (fun _ => 0) trConst (fun _ _ => some "w") [testSV] nowT
      = .error .typeError :=
  now_query_crashes_when_window_empty (fun _ => 0) trConst (fun _ _ => some "w")
    [testSV] nowT (by decide)
